import Mathlib

/-!
# Verification of the Ceiba-Downloader crawl-and-mirror pipeline

Shallow embedding of `src/ceiba/ceiba.py` (class `Ceiba`): session login,
course-catalog parsing (`get_courses_list`), homepage rewriting
(`download_ceiba_homepage`) and the batch download orchestrator
(`download_courses`).  Network I/O is modelled by explicit traces of
operations and by a response oracle; BeautifulSoup documents are modelled
by the row/cell structure the code actually inspects.  Helpers that live in
modules outside `src/` (`util`, `course`) are modelled from the spec and
marked as such in their doc comments.
-/

namespace Ceiba

/-- The exception classes of `ceiba.exceptions` used by the embedded code.
Modelled from the spec: the exceptions module is not under `src/`; the spec
gives the taxonomy (`InvalidLoginParameters`, `InvalidCredentials`,
`InvalidFilePath`). -/
inductive CeibaError where
  | invalidCredentials
  | invalidFilePath
  | invalidLoginParameters
  deriving DecidableEq, Repr

/-- A Python-level exception as observed by a caller of the embedded
methods: either one of the repository's own exception classes or a
built-in `KeyError` (raised by `self.course_dir_map[course_id]` when the
key is absent). -/
inductive PyExn where
  | ceiba (e : CeibaError)
  | keyError (k : String)
  deriving DecidableEq, Repr

/-- Characters Python's `str.strip()` removes (ASCII whitespace plus the
no-break space `\xa0`, which Python classifies as whitespace). -/
def pyIsSpace (c : Char) : Bool :=
  c = ' ' || c = '\t' || c = '\n' || c = '\x0d' || c = '\x0b' || c = '\x0c' || c = '\xA0'

/-- Python `s.strip()`: drop whitespace from both ends. -/
def pyStrip (s : String) : String :=
  String.mk (((s.data.dropWhile pyIsSpace).reverse.dropWhile pyIsSpace).reverse)

/-- Whether the first list is an initial segment of the second. -/
def leadsList [DecidableEq α] : List α → List α → Bool
  | [], _ => true
  | _ :: _, [] => false
  | a :: as, b :: bs => a = b && leadsList as bs

/-- Whether `needle` occurs as a contiguous sublist of `hay`. -/
def hasSubList [DecidableEq α] (needle : List α) : List α → Bool
  | [] => needle.isEmpty
  | b :: bs => leadsList needle (b :: bs) || hasSubList needle bs

/-- Python `needle in hay` for strings: substring containment (the empty
needle is contained in every string). -/
def pyIn (needle hay : String) : Bool :=
  hasSubList needle.data hay.data

/-- Python `s.split(sep)` for a one-character separator: split on every
occurrence, keeping empty pieces (`"".split(sep)` is `[""]`). -/
def splitOnChar (sep : Char) : List Char → List (List Char)
  | [] => [[]]
  | c :: cs =>
    let r := splitOnChar sep cs
    if c = sep then [] :: r
    else (c :: r.headD []) :: r.tail

/-- The `Union[Path, str]` argument accepted by `download_courses` and
`download_ceiba_homepage`: either a `str` or an already-constructed
`pathlib.Path` (which remembers the string it was built from). -/
inductive PyPathArg where
  | str (s : String)
  | path (s : String)
  deriving DecidableEq, Repr

/-- The string a `pathlib.Path` built from `s` denotes: `Path("")` is
`Path(".")`, other strings are kept as given. -/
def pathlibStr (s : String) : String :=
  if s = "" then "." else s

/-- The directory string `Path(path)` denotes for either variant of the
`Union[Path, str]` argument. -/
def argPathStr : PyPathArg → String
  | .str s => pathlibStr s
  | .path s => pathlibStr s

/-- `pathlib` `/` join: `Path(".") / b` is `Path(b)`. -/
def pyJoin (a b : String) : String :=
  if a = "." then b else a ++ "/" ++ b

/-- The guarded path check shared by `download_courses` (lines 116-121) and
`download_ceiba_homepage` (lines 146-151): inside a `try`, an empty `str`
argument raises `FileNotFoundError`, which the `except` clause converts to
`InvalidFilePath`.  A `Path`-typed argument never trips the
`type(path) == str` test.  (`mkdir(parents=True, exist_ok=True)` itself is
modelled as succeeding.) -/
def validate_path (path : PyPathArg) : Except PyExn Unit :=
  match path with
  | .str s => if s.length = 0 then .error (.ceiba .invalidFilePath) else .ok ()
  | .path _ => .ok ()

/-- One enrollment record, as built by `get_courses_list`.
Modelled from the spec: `ceiba/course.py` is not under `src/`; the spec
lists the attributes (semester code, course number, Chinese name, English
name, teacher, portal href). -/
structure Course where
  semester : String
  course_num : String
  cname : String
  ename : String
  teacher : String
  href : String
  deriving DecidableEq, Repr

/-- Modelled from the spec: the derived stable identifier
`semester+course_num` of a `Course` (`ceiba/course.py` is not under
`src/`). -/
def Course.id (c : Course) : String :=
  c.semester ++ c.course_num

/-- One data row of the first table of the courses-listing page, holding
exactly the cells inspected by the code: the raw texts of `td` cells 0, 2,
4 and 5, plus the anchor found in cell 4 (its `href` attribute and its
`.text`). -/
structure CourseRow where
  td0 : String
  td2 : String
  td4 : String
  td5 : String
  anchorHref : String
  anchorText : String
  deriving DecidableEq, Repr

/-- The courses-listing page as the code sees it: the data rows
(`rows[1:]`) of the first table; the header row and the second table
("courses not set up in ceiba") are skipped by the code and omitted
here. -/
structure CoursesPage where
  dataRows : List CourseRow
  deriving DecidableEq, Repr

/-- The `Course` constructed from one table row by `get_courses_list`
(lines 88-101): cells are `.text.strip()`-ed, the name cell is split on
the no-break space into Chinese and optional English names. -/
def courseOfRow (row : CourseRow) : Course :=
  let name := (splitOnChar '\xA0' (pyStrip row.td4).data).map String.mk
  { semester := pyStrip row.td0
    course_num := pyStrip row.td2
    cname := pyStrip (name.headD "")
    ename := name.getD 1 ""
    teacher := pyStrip row.td5
    href := row.anchorHref }

/-- One iteration of the `get_courses_list` row loop: `none` when the
Chinese name is in the exclusion set (`continue`), otherwise the built
`Course`.  The exclusion set `util.skip_courses_list` lives outside
`src/` and is passed as the parameter `skip` (modelled from the spec: "a
fixed exclusion set"). -/
def parseRow (skip : List String) (row : CourseRow) : Option Course :=
  let c := courseOfRow row
  if skip.contains c.cname then none else some c

/-- The courses produced from the data rows, in row order. -/
def coursesOfRows (skip : List String) (rows : List CourseRow) : List Course :=
  rows.filterMap (parseRow skip)

/-- Python-dict update for `self.course_dir_map`, modelled as a lookup
function: `m[k] = v`. -/
def dictInsert (m : String → Option String) (k v : String) : String → Option String :=
  fun q => if q = k then some v else m q

/-- The `course_dir_map` insertions performed by the `get_courses_list`
loop: `self.course_dir_map[course.id] = course.folder_name` for each
parsed course, in order.  `folder_name` is derived in `ceiba/course.py`
(not under `src/`) and is passed as the parameter `fn` (modelled from the
spec: "a derived filesystem-safe folder name"). -/
def build_dir_map (fn : Course → String) (cs : List Course)
    (m : String → Option String) : String → Option String :=
  cs.foldl (fun m c => dictInsert m c.id (fn c)) m

/-- The mutable attributes of a `Ceiba` instance touched by the embedded
methods (`__init__`, lines 22-38). -/
structure CeibaState where
  courses : List Course
  course_dir_map : String → Option String
  student_name : String
  email : String
  userId : String
  is_login : Bool

/-- The state of a fresh `Ceiba()` (courses list empty, map empty, not
logged in). -/
def initState : CeibaState :=
  { courses := []
    course_dir_map := fun _ => none
    student_name := ""
    email := "Not Login"
    userId := ""
    is_login := false }

/-- `Ceiba.get_courses_list` (lines 78-105) on an already-fetched courses
page: append each non-excluded row's `Course` to `self.courses`, record
its folder name in `self.course_dir_map`, and return `self.courses`. -/
def get_courses_list (skip : List String) (fn : Course → String)
    (page : CoursesPage) (s : CeibaState) : CeibaState × List Course :=
  let parsed := coursesOfRows skip page.dataRows
  let s' := { s with
    courses := s.courses ++ parsed
    course_dir_map := build_dir_map fn parsed s.course_dir_map }
  (s', s'.courses)

/-- The composite course id recomputed from a row's own cells by
`download_ceiba_homepage` (line 166): `cols[0] + cols[2]` after
`.text.strip()`. -/
def courseIdOfRow (row : CourseRow) : String :=
  pyStrip row.td0 ++ pyStrip row.td2

/-- The fate of one course-table row after `download_ceiba_homepage`
rewrote the document:
* `muted`: the anchor was unwrapped (`replaceWithChildren`, keeping its
  text) and the row was styled `background: silver;`;
* `active`: the anchor survived the final unwrap pass (it was recorded in
  `valid_a_tag`) with the given rewritten `href`. -/
inductive RowResult where
  | muted (text : String)
  | active (href : String) (text : String)
  deriving DecidableEq, Repr

/-- One iteration of the homepage row loop (lines 162-174).  The skip test
uses the anchor's `.text` verbatim; a missing `course_dir_map` key raises
`KeyError`. -/
def rewriteRow (skip : List String) (filter : Option (List String))
    (m : String → Option String) (row : CourseRow) : Except PyExn RowResult :=
  if skip.contains row.anchorText ||
      (match filter with
       | some f => !(f.contains (courseIdOfRow row))
       | none => false) then
    .ok (.muted row.anchorText)
  else
    match m (courseIdOfRow row) with
    | some folder => .ok (.active ("courses/" ++ folder ++ "/index.html") row.anchorText)
    | none => .error (.keyError (courseIdOfRow row))

/-- Run an exception-raising step over a list, stopping at the first
raised exception (the Python `for` loop's semantics). -/
def exceptMapM (f : α → Except ε β) : List α → Except ε (List β)
  | [] => .ok []
  | a :: as =>
    match f a with
    | .error e => .error e
    | .ok b =>
      match exceptMapM f as with
      | .error e => .error e
      | .ok bs => .ok (b :: bs)

/-- The whole homepage row-rewriting loop. -/
def rewriteRows (skip : List String) (filter : Option (List String))
    (m : String → Option String) (rows : List CourseRow) :
    Except PyExn (List RowResult) :=
  exceptMapM (rewriteRow skip filter m) rows

/-- Observable side effects of the download methods: directory creation,
network fetches, the written homepage, and the per-course events of the
orchestrator loop. -/
inductive Event where
  | mkdirRootDir (dir : String)
  | fetchCoursesPage
  | downloadCss
  | writeIndexHtml (dir : String)
  | mkdirCoursesDir (dir : String)
  | mkdirCourseDir (c : Course)
  | downloadOk (c : Course)
  | courseSkipped (c : Course) (msg : String)
  deriving DecidableEq, Repr

/-- `Ceiba.download_ceiba_homepage` (lines 140-185): validate the path,
create the root directory, fetch the courses page, mirror the
stylesheets, rewrite the course rows (unwrapping every anchor not
recorded valid and dropping `option` elements), and write `index.html`.
The result is the trace of effects performed before returning or raising,
paired with the outcome. -/
def download_ceiba_homepage (skip : List String) (filter : Option (List String))
    (m : String → Option String) (rows : List CourseRow) (path : PyPathArg) :
    List Event × Except PyExn Unit :=
  match validate_path path with
  | .error e => ([], .error e)
  | .ok _ =>
    let root := argPathStr path
    let pre := [Event.mkdirRootDir root, Event.fetchCoursesPage, Event.downloadCss]
    match rewriteRows skip filter m rows with
    | .error e => (pre, .error e)
    | .ok _ => (pre ++ [Event.writeIndexHtml root], .ok ())

/-- The `course_id_filter` test of the orchestrator loop (line 128):
download when no filter is given or the course id is in the filter. -/
def selectedCourse (filter : Option (List String)) (c : Course) : Bool :=
  match filter with
  | none => true
  | some f => f.contains c.id

/-- The per-course loop of `download_courses` (lines 126-137): for each
selected course create its directory and call `course.download`; a raised
exception (`dl c = .error msg`) is caught, logged with a skip warning,
and the loop continues with the next course. -/
def downloadLoop (dl : Course → Except String Unit)
    (filter : Option (List String)) : List Course → List Event
  | [] => []
  | c :: cs =>
    if selectedCourse filter c then
      Event.mkdirCourseDir c ::
        ((match dl c with
          | .ok _ => [Event.downloadOk c]
          | .error e => [Event.courseSkipped c e]) ++ downloadLoop dl filter cs)
    else downloadLoop dl filter cs

/-- `Ceiba.download_courses` (lines 107-138): validate the path and create
`path/courses/`, run the homepage rewriter, then run the per-course loop
over `self.courses`.  The per-course downloader `dl` stands for the
`Course.download` collaborator (its module is outside `src/`; per the
spec it "may raise any exception"). -/
def download_courses (skip : List String) (m : String → Option String)
    (rows : List CourseRow) (dl : Course → Except String Unit)
    (filter : Option (List String)) (path : PyPathArg) (courses : List Course) :
    List Event × Except PyExn Unit :=
  match validate_path path with
  | .error e => ([], .error e)
  | .ok _ =>
    let root := argPathStr path
    let mk := [Event.mkdirCoursesDir (pyJoin root "courses")]
    let home := download_ceiba_homepage skip filter m rows path
    match home.2 with
    | .error e => (mk ++ home.1, .error e)
    | .ok _ => (mk ++ home.1 ++ downloadLoop dl filter courses, .ok ())

/-- An HTTP response as the embedded code observes it: the final
(post-redirect) URL and the decoded body. -/
structure HttpResponse where
  url : String
  body : String
  deriving DecidableEq, Repr

/-- A network operation issued through the session. -/
inductive NetOp where
  | get (url : String)
  | post (url : String) (user pass : String)
  deriving DecidableEq, Repr

/-- Modelled from the spec: `util.login_url`, the fixed login endpoint
(`ceiba/util.py` is not under `src/`; the URL's value is irrelevant to
the claims). -/
def login_url : String := "https://ceiba.ntu.edu.tw/ChkSessLib.php"

/-- Modelled from the spec: `util.info_url`, the account-info page URL
(`ceiba/util.py` is not under `src/`). -/
def info_url : String := "https://ceiba.ntu.edu.tw/student/index.php?seme_op=relative"

/-- The login-failure test of `login_user` (line 45): the decoded response
body contains either failure marker. -/
def hasFailureMarker (body : String) : Bool :=
  pyIn "登入失敗" body || pyIn "更改密碼" body

/-- `Ceiba.login_user` (lines 40-47), with the portal modelled as a
response oracle `srv` mapping the trace of operations issued so far to
the response of the last one: GET the login page, POST the credentials to
its final URL, raise `InvalidCredentials` on a failure marker, otherwise
POST the same payload a second time to the final URL of the first POST's
response.  Returns the trace of network operations and the outcome. -/
def login_user (srv : List NetOp → HttpResponse) (username password : String) :
    List NetOp × Except CeibaError Unit :=
  let r0 := srv [NetOp.get login_url]
  let t1 := [NetOp.get login_url, NetOp.post r0.url username password]
  let r1 := srv t1
  if hasFailureMarker r1.body then
    (t1, .error .invalidCredentials)
  else
    (t1 ++ [NetOp.post r1.url username password], .ok ())

/-- Side effects of `login`: the installed session cookie or network
operations. -/
inductive LoginEffect where
  | setCookie (v : String)
  | net (op : NetOp)
  deriving DecidableEq, Repr

/-- Python truthiness of an `Optional[str]` argument: `None` and `""` are
falsy. -/
def pyTruthy : Option String → Bool
  | none => false
  | some s => !(s == "")

/-- The account-info page as the parse step sees it: the document's `tr`
elements in order, each recorded as the text of its first `td` (or `none`
when the row has no `td`, in which case `find('td')` returns `None` and
`.text` raises `AttributeError`). -/
abbrev InfoPage := List (Option String)

/-- The account-info parse step of `login` (lines 68-75): read
`trs[0]`'s and `trs[5]`'s first `td`, derive the user id from the email;
`IndexError`/`AttributeError` become `InvalidCredentials`.  Attributes
are assigned in source order, so `student_name` may be updated even when
the later email lookup fails; `is_login` is set only after everything
succeeded. -/
def parse_info_step (page : InfoPage) (s : CeibaState) :
    CeibaState × Except CeibaError Unit :=
  match page[0]? with
  | some (some nameTxt) =>
    let s1 := { s with student_name := nameTxt }
    match page[5]? with
    | some (some emailTxt) =>
      let s2 := { s1 with
        email := emailTxt
        userId := String.mk ((splitOnChar '@' emailTxt.data).headD [])
        is_login := true }
      (s2, .ok ())
    | _ => (s1, .error .invalidCredentials)
  | _ => (s, .error .invalidCredentials)

/-- Whether the account-info page has the shape the parse step needs:
a first and a sixth `tr`, each with a `td`. -/
def infoPageWellformed (page : InfoPage) : Bool :=
  match page[0]?, page[5]? with
  | some (some _), some (some _) => true
  | _, _ => false

/-- `Ceiba.login` (lines 49-76): install the session cookie if one is
given, else submit the login form when both credentials are given, else
raise `InvalidLoginParameters`; then fetch the account-info page
(supplied here as `page`) and run the parse step.  Returns the final
state, the effect trace, and the outcome. -/
def login (srv : List NetOp → HttpResponse) (cookie username password : Option String)
    (page : InfoPage) (s : CeibaState) :
    CeibaState × List LoginEffect × Except CeibaError Unit :=
  let auth : List LoginEffect × Except CeibaError Unit :=
    if pyTruthy cookie then
      ([.setCookie (cookie.getD "")], .ok ())
    else if pyTruthy username && pyTruthy password then
      let r := login_user srv (username.getD "") (password.getD "")
      (r.1.map .net, r.2)
    else
      ([], .error .invalidLoginParameters)
  match auth with
  | (effs, .error e) => (s, effs, .error e)
  | (effs, .ok _) =>
    let effs := effs ++ [.net (.get info_url)]
    let r := parse_info_step page s
    (r.1, effs, r.2)

/-- The value the last insertion for key `k` in `cs` would give, if any. -/
def lastFolder (fn : Course → String) : List Course → String → Option String
  | [], _ => none
  | c :: cs, k =>
    match lastFolder fn cs k with
    | some v => some v
    | none => if c.id = k then some (fn c) else none

/-- A courses-page row whose concatenated id `"110" ++ "1101"` collides
with that of `dupRowB` (`"1101" ++ "101"`), both giving `"1101101"`. -/
def dupRowA : CourseRow :=
  { td0 := "110", td2 := "1101", td4 := "A", td5 := "T1", anchorHref := "h1", anchorText := "A" }

/-- See `dupRowA`. -/
def dupRowB : CourseRow :=
  { td0 := "1101", td2 := "101", td4 := "B", td5 := "T2", anchorHref := "h2", anchorText := "B" }

/-- A concrete response oracle used by witnesses: the login-page GET
redirects to `https://x/login`; every later operation lands on
`https://x/chk` with a marker-free body. -/
def demoSrv : List NetOp → HttpResponse := fun t =>
  if t.length = 1 then ⟨"https://x/login", ""⟩ else ⟨"https://x/chk", "welcome"⟩

/-- A concrete course used by witnesses. -/
def demoCourse0 : Course :=
  { semester := "110", course_num := "X1", cname := "c0", ename := "", teacher := "t", href := "h" }

/-- A concrete course used by witnesses. -/
def demoCourse1 : Course :=
  { semester := "110", course_num := "X2", cname := "c1", ename := "", teacher := "t", href := "h" }

/-- A concrete course used by witnesses. -/
def demoCourse2 : Course :=
  { semester := "110", course_num := "X3", cname := "c2", ename := "", teacher := "t", href := "h" }

/-- A concrete per-course downloader for witnesses: `demoCourse1` raises,
everything else succeeds. -/
def demoDl : Course → Except String Unit := fun c =>
  if c = demoCourse1 then .error "boom" else .ok ()

/-! ## Helper lemmas -/

theorem coursesOfRows_eq_map_filter (skip : List String) (rows : List CourseRow) :
    coursesOfRows skip rows =
      (rows.filter fun r => !(skip.contains (courseOfRow r).cname)).map courseOfRow := by
  induction rows with
  | nil => rfl
  | cons r rs ih =>
    simp only [coursesOfRows, List.filterMap_cons, List.filter_cons] at *
    by_cases h : (courseOfRow r).cname ∈ skip
    · simp [parseRow, h, ih]
    · simp [parseRow, h, ih]

theorem courseOfRow_id (row : CourseRow) :
    (courseOfRow row).id = courseIdOfRow row := rfl

theorem exceptMapM_ok_get {f : α → Except ε β} :
    ∀ {l : List α} {rs : List β}, exceptMapM f l = .ok rs →
      ∀ (i : Nat) (a : α), l[i]? = some a → ∃ b, f a = .ok b ∧ rs[i]? = some b := by
  intro l
  induction l with
  | nil => intro rs _ i a ha; simp at ha
  | cons x xs ih =>
    intro rs hok i a ha
    simp only [exceptMapM] at hok
    cases hx : f x with
    | error e => rw [hx] at hok; exact absurd hok (by simp)
    | ok b =>
      rw [hx] at hok
      cases hxs : exceptMapM f xs with
      | error e => rw [hxs] at hok; exact absurd hok (by simp)
      | ok bs =>
        rw [hxs] at hok
        cases hok with
        | refl =>
          cases i with
          | zero =>
            simp at ha
            subst ha
            exact ⟨b, hx, by simp⟩
          | succ j =>
            simp only [List.getElem?_cons_succ] at ha ⊢
            exact ih hxs j a ha

theorem exceptMapM_error_src {f : α → Except ε β} :
    ∀ {l : List α} {e : ε}, exceptMapM f l = .error e → ∃ a ∈ l, f a = .error e := by
  intro l
  induction l with
  | nil => intro e he; simp [exceptMapM] at he
  | cons x xs ih =>
    intro e he
    simp only [exceptMapM] at he
    cases hx : f x with
    | error e' =>
      rw [hx] at he
      cases he with
      | refl => exact ⟨x, by simp, hx⟩
    | ok b =>
      rw [hx] at he
      cases hxs : exceptMapM f xs with
      | error e' =>
        rw [hxs] at he
        cases he with
        | refl =>
          obtain ⟨a, ha, hfa⟩ := ih hxs
          exact ⟨a, by simp [ha], hfa⟩
      | ok bs => rw [hxs] at he; exact absurd he (by simp)

theorem rewriteRow_error_is_keyError (skip : List String) (filter : Option (List String))
    (m : String → Option String) (row : CourseRow) (e : PyExn)
    (h : rewriteRow skip filter m row = .error e) : ∃ k, e = .keyError k := by
  unfold rewriteRow at h
  split at h
  · exact absurd h (by simp)
  · cases hm : m (courseIdOfRow row) with
    | none => rw [hm] at h; exact ⟨courseIdOfRow row, by cases h; rfl⟩
    | some folder => rw [hm] at h; exact absurd h (by simp)

theorem rewriteRows_error_is_keyError (skip : List String) (filter : Option (List String))
    (m : String → Option String) (rows : List CourseRow) (e : PyExn)
    (h : rewriteRows skip filter m rows = .error e) : ∃ k, e = .keyError k := by
  obtain ⟨row, _, hrow⟩ := exceptMapM_error_src h
  exact rewriteRow_error_is_keyError skip filter m row e hrow

theorem build_dir_map_apply (fn : Course → String) (cs : List Course) :
    ∀ (m : String → Option String) (k : String),
      build_dir_map fn cs m k =
        match lastFolder fn cs k with
        | some v => some v
        | none => m k := by
  induction cs with
  | nil => intro m k; rfl
  | cons c cs ih =>
    intro m k
    have h1 : build_dir_map fn (c :: cs) m = build_dir_map fn cs (dictInsert m c.id (fn c)) := rfl
    rw [h1, ih]
    cases h : lastFolder fn cs k with
    | some v => simp [lastFolder, h]
    | none =>
      simp only [lastFolder, h, dictInsert]
      by_cases hk : k = c.id
      · subst hk; simp
      · have hk' : ¬ (c.id = k) := fun he => hk he.symm
        simp [hk, hk']

theorem build_dir_map_idem (fn : Course → String) (cs : List Course)
    (m : String → Option String) :
    build_dir_map fn cs (build_dir_map fn cs m) = build_dir_map fn cs m := by
  funext k
  simp only [build_dir_map_apply]
  cases h : lastFolder fn cs k <;> simp

theorem rewriteRows_active_at (skip : List String) (filter : Option (List String))
    (m : String → Option String) (rows : List CourseRow) (rs : List RowResult)
    (i : Nat) (row : CourseRow)
    (hok : rewriteRows skip filter m rows = .ok rs)
    (hrow : rows[i]? = some row)
    (hskip : row.anchorText ∉ skip)
    (hfilt : ∀ f, filter = some f → courseIdOfRow row ∈ f) :
    ∃ folder, m (courseIdOfRow row) = some folder ∧
      rs[i]? = some (.active ("courses/" ++ folder ++ "/index.html") row.anchorText) := by
  obtain ⟨b, hb, hrs⟩ := exceptMapM_ok_get hok i row hrow
  unfold rewriteRow at hb
  cases hm : m (courseIdOfRow row) with
  | none =>
    rw [hm] at hb
    cases filter with
    | none => simp [hskip] at hb
    | some f => simp [hskip, hfilt f rfl] at hb
  | some folder =>
    rw [hm] at hb
    refine ⟨folder, rfl, ?_⟩
    cases filter with
    | none =>
      simp [hskip] at hb
      subst hb
      exact hrs
    | some f =>
      simp [hskip, hfilt f rfl] at hb
      subst hb
      exact hrs

/-! ## Claims -/

/-- **C2** (amended): the course list returned by `get_courses_list`
appends, to the courses already held, the non-excluded rows' records in
row order (header row and excluded names skipped); the derived ids of the
newly parsed batch are pairwise distinct *provided* the non-excluded rows
have pairwise-distinct concatenated `semester+course_num` strings (the
code itself performs no deduplication). -/
theorem get_courses_list_order_and_ids (skip : List String) (fn : Course → String)
    (page : CoursesPage) (s : CeibaState)
    (hdist : (page.dataRows.filter fun r => !(skip.contains (courseOfRow r).cname)).Pairwise
      fun r r' => courseIdOfRow r ≠ courseIdOfRow r') :
    (get_courses_list skip fn page s).2 =
      s.courses ++
        (page.dataRows.filter fun r => !(skip.contains (courseOfRow r).cname)).map courseOfRow
    ∧ (coursesOfRows skip page.dataRows).Pairwise fun a b => a.id ≠ b.id := by
  constructor
  · show s.courses ++ coursesOfRows skip page.dataRows = _
    rw [coursesOfRows_eq_map_filter]
  · rw [coursesOfRows_eq_map_filter, List.pairwise_map]
    refine hdist.imp ?_
    intro r r' h
    simpa [courseOfRow_id] using h

/-- Witness for `get_courses_list_order_and_ids` at a concrete two-row
page with distinct ids. -/
theorem get_courses_list_order_and_ids_witness :
    (([dupRowA, dupRowA].filter fun r => !((["A"] : List String).contains (courseOfRow r).cname)).Pairwise
      fun r r' => courseIdOfRow r ≠ courseIdOfRow r')
    ∧ (coursesOfRows ["A"] [dupRowA, dupRowA]).Pairwise (fun a b => a.id ≠ b.id) := by
  refine ⟨by decide, ?_⟩
  exact (get_courses_list_order_and_ids ["A"] (fun _ => "f") ⟨[dupRowA, dupRowA]⟩ initState
    (by decide)).2

/-- **C2** (counterexample to the claim as stated): on a page whose two
rows have distinct `(semester, course_num)` cells but colliding
concatenations, the returned catalog's ids are *not* pairwise
distinct. -/
theorem get_courses_list_ids_not_distinct_counterexample :
    ¬ (((get_courses_list [] (fun _ => "f") ⟨[dupRowA, dupRowB]⟩ initState).2).Pairwise
      fun a b => a.id ≠ b.id) := by
  decide

/-- **C9**: `get_courses_list` is not idempotent: starting from a fresh
course list, a second call over the same page appends the same parsed
batch again, so the returned list is the batch twice (every record's
multiplicity doubles), while the course-directory map is unchanged by the
second call (its entries are overwritten with the same values). -/
theorem get_courses_list_not_idempotent (skip : List String) (fn : Course → String)
    (page : CoursesPage) (m : String → Option String) (sn em uid : String) (lg : Bool) :
    (get_courses_list skip fn page
        ((get_courses_list skip fn page
          { courses := [], course_dir_map := m, student_name := sn,
            email := em, userId := uid, is_login := lg }).1)).2 =
      coursesOfRows skip page.dataRows ++ coursesOfRows skip page.dataRows
    ∧ (∀ c : Course,
        ((get_courses_list skip fn page
          ((get_courses_list skip fn page
            { courses := [], course_dir_map := m, student_name := sn,
              email := em, userId := uid, is_login := lg }).1)).2).count c =
        2 * (coursesOfRows skip page.dataRows).count c)
    ∧ ((get_courses_list skip fn page
        ((get_courses_list skip fn page
          { courses := [], course_dir_map := m, student_name := sn,
            email := em, userId := uid, is_login := lg }).1)).1).course_dir_map =
      ((get_courses_list skip fn page
        { courses := [], course_dir_map := m, student_name := sn,
          email := em, userId := uid, is_login := lg }).1).course_dir_map := by
  refine ⟨by simp [get_courses_list], ?_, ?_⟩
  · intro c
    simp [get_courses_list, List.count_append, Nat.two_mul]
  · simp [get_courses_list, build_dir_map_idem]

/-- **C7**: calling `download_courses` with the empty string as path raises
`InvalidFilePath` with an empty effect trace — before any network request
and before the homepage rewriter runs — and `download_ceiba_homepage`
performs the same empty-string check. -/
theorem empty_string_path_rejected (skip : List String) (m : String → Option String)
    (rows : List CourseRow) (dl : Course → Except String Unit)
    (filter : Option (List String)) (courses : List Course) :
    download_courses skip m rows dl filter (.str "") courses =
      ([], .error (.ceiba .invalidFilePath))
    ∧ download_ceiba_homepage skip filter m rows (.str "") =
      ([], .error (.ceiba .invalidFilePath)) :=
  ⟨rfl, rfl⟩

/-- **C8**: `login` tests its optional arguments by Python truthiness, so an
empty-string session token with no credentials, or a username with an
empty-string password, both raise `InvalidLoginParameters` with no cookie
installed and no network traffic. -/
theorem login_empty_string_params (srv : List NetOp → HttpResponse)
    (u : String) (page : InfoPage) (s : CeibaState) :
    login srv (some "") none none page s = (s, [], .error .invalidLoginParameters)
    ∧ login srv none (some u) (some "") page s = (s, [], .error .invalidLoginParameters) := by
  constructor
  · rfl
  · simp [login, pyTruthy]

/-- **C5**: in the username/password path, the login form is posted to
the login page's redirect target and the response body is checked for the
two failure markers: a marker yields `InvalidCredentials` (and no second
post); otherwise the form is always posted a second time, to the final
(post-redirect) URL of the first submission's response, before the flow
proceeds. -/
theorem login_user_flow (srv : List NetOp → HttpResponse) (u p : String) :
    (hasFailureMarker (srv [NetOp.get login_url,
        NetOp.post (srv [NetOp.get login_url]).url u p]).body = true →
      login_user srv u p =
        ([NetOp.get login_url, NetOp.post (srv [NetOp.get login_url]).url u p],
          .error .invalidCredentials))
    ∧ (hasFailureMarker (srv [NetOp.get login_url,
        NetOp.post (srv [NetOp.get login_url]).url u p]).body = false →
      login_user srv u p =
        ([NetOp.get login_url, NetOp.post (srv [NetOp.get login_url]).url u p,
          NetOp.post (srv [NetOp.get login_url,
            NetOp.post (srv [NetOp.get login_url]).url u p]).url u p],
          .ok ()))
    ∧ ((login_user srv u p).2 = .ok () ↔
        hasFailureMarker (srv [NetOp.get login_url,
          NetOp.post (srv [NetOp.get login_url]).url u p]).body = false) := by
  unfold login_user
  by_cases h : hasFailureMarker (srv [NetOp.get login_url,
    NetOp.post (srv [NetOp.get login_url]).url u p]).body
  · simp [h]
  · simp [h]

/-- Witness for `login_user_flow`: with the concrete oracle `demoSrv` the
body has no failure marker and both posts are issued. -/
theorem login_user_flow_witness :
    hasFailureMarker (demoSrv [NetOp.get login_url,
      NetOp.post (demoSrv [NetOp.get login_url]).url "u" "p"]).body = false
    ∧ login_user demoSrv "u" "p" =
      ([NetOp.get login_url, NetOp.post "https://x/login" "u" "p",
        NetOp.post "https://x/chk" "u" "p"], .ok ()) := by
  refine ⟨by decide, ?_⟩
  exact (login_user_flow demoSrv "u" "p").2.1 (by decide)

theorem parse_info_step_fail (page : InfoPage) (s : CeibaState)
    (h : infoPageWellformed page = false) :
    (parse_info_step page s).2 = .error .invalidCredentials
    ∧ (parse_info_step page s).1.is_login = s.is_login := by
  unfold infoPageWellformed at h
  unfold parse_info_step
  cases h0 : page[0]? with
  | none => simp [h0]
  | some o0 =>
    cases o0 with
    | none => simp [h0]
    | some t0 =>
      cases h5 : page[5]? with
      | none => simp [h0, h5]
      | some o5 =>
        cases o5 with
        | none => simp [h0, h5]
        | some t5 => rw [h0, h5] at h; simp at h

/-- **C6**: after either successful authentication path (cookie installed,
or credentials accepted by `login_user`), every malformed account-info
page shape — missing first or sixth row, or a row without a `td` — makes
`login` raise `InvalidCredentials`, and `is_login` is left exactly as it
was (in particular the session is not marked authenticated). -/
theorem login_parse_failure (srv : List NetOp → HttpResponse)
    (cookie username password : Option String) (page : InfoPage) (s : CeibaState)
    (hauth : pyTruthy cookie = true ∨
      ((pyTruthy username && pyTruthy password) = true ∧
        (login_user srv (username.getD "") (password.getD "")).2 = .ok ()))
    (hbad : infoPageWellformed page = false) :
    (login srv cookie username password page s).2.2 = .error .invalidCredentials
    ∧ (login srv cookie username password page s).1.is_login = s.is_login := by
  have hparse := parse_info_step_fail page s hbad
  by_cases hc : pyTruthy cookie = true
  · simp only [login, hc, if_pos]
    exact ⟨hparse.1, hparse.2⟩
  · rcases hauth with h | ⟨hup, hok⟩
    · exact absurd h hc
    · simp only [login, hc, if_neg, Bool.not_eq_true] at *
      simp only [hc, Bool.false_eq_true, if_false, hup, if_pos]
      rw [hok]
      exact ⟨hparse.1, hparse.2⟩

/-- Witness for `login_parse_failure`: a supplied session token with an
empty account-info page. -/
theorem login_parse_failure_witness :
    (pyTruthy (some "tok") = true ∨
      ((pyTruthy none && pyTruthy none) = true ∧
        (login_user demoSrv ((none : Option String).getD "")
          ((none : Option String).getD "")).2 = .ok ()))
    ∧ infoPageWellformed [] = false
    ∧ (login demoSrv (some "tok") none none [] initState).2.2 = .error .invalidCredentials
    ∧ (login demoSrv (some "tok") none none [] initState).1.is_login = initState.is_login := by
  refine ⟨Or.inl (by decide), by decide, ?_⟩
  exact login_parse_failure demoSrv (some "tok") none none [] initState
    (Or.inl (by decide)) (by decide)

theorem downloadLoop_ok_mem (dl : Course → Except String Unit)
    (filter : Option (List String)) :
    ∀ courses : List Course, ∀ c ∈ courses, selectedCourse filter c = true →
      dl c = .ok () → Event.downloadOk c ∈ downloadLoop dl filter courses := by
  intro courses
  induction courses with
  | nil => intro c hc; simp at hc
  | cons x xs ih =>
    intro c hc hsel hdl
    rcases List.mem_cons.1 hc with h | h
    · subst h
      simp [downloadLoop, hsel, hdl]
    · by_cases hx : selectedCourse filter x = true
      · simp only [downloadLoop, hx, if_pos]
        cases hdx : dl x <;>
          simp [List.mem_cons, List.mem_append, ih c h hsel hdl]
      · simp only [downloadLoop, hx, if_neg, Bool.not_eq_true]
        simp only [Bool.not_eq_true] at hx
        simp [hx, ih c h hsel hdl]

theorem downloadLoop_skip_mem (dl : Course → Except String Unit)
    (filter : Option (List String)) :
    ∀ courses : List Course, ∀ c ∈ courses, selectedCourse filter c = true →
      ∀ e, dl c = .error e →
        Event.courseSkipped c e ∈ downloadLoop dl filter courses := by
  intro courses
  induction courses with
  | nil => intro c hc; simp at hc
  | cons x xs ih =>
    intro c hc hsel e hdl
    rcases List.mem_cons.1 hc with h | h
    · subst h
      simp [downloadLoop, hsel, hdl]
    · by_cases hx : selectedCourse filter x = true
      · simp only [downloadLoop, hx, if_pos]
        cases hdx : dl x <;>
          simp [List.mem_cons, List.mem_append, ih c h hsel e hdl]
      · simp only [downloadLoop] at *
        simp only [Bool.not_eq_true] at hx
        simp [hx, ih c h hsel e hdl]

theorem downloadLoop_eq_flatMap (dl : Course → Except String Unit)
    (filter : Option (List String)) (courses : List Course) :
    downloadLoop dl filter courses =
      (courses.filter (selectedCourse filter)).flatMap fun c =>
        Event.mkdirCourseDir c ::
          match dl c with
          | .ok _ => [Event.downloadOk c]
          | .error e => [Event.courseSkipped c e] := by
  induction courses with
  | nil => rfl
  | cons x xs ih =>
    by_cases hx : selectedCourse filter x = true
    · simp [downloadLoop, hx, List.filter_cons, ih]
    · simp only [Bool.not_eq_true] at hx
      simp [downloadLoop, hx, List.filter_cons, ih]

/-- **C1**: the outcome of `download_courses` never depends on the
per-course downloader's behaviour (a raised per-course exception is
caught and logged, never propagated); and whenever the path validates and
the homepage rewrite succeeds, the batch returns normally, every selected
course whose downloader succeeds has its download completed, and every
selected course whose downloader raises is logged as skipped while
iteration continues. -/
theorem download_courses_isolates_failures (skip : List String)
    (m : String → Option String) (rows : List CourseRow)
    (dl dl' : Course → Except String Unit) (filter : Option (List String))
    (path : PyPathArg) (courses : List Course) :
    ((download_courses skip m rows dl filter path courses).2 =
      (download_courses skip m rows dl' filter path courses).2)
    ∧ (∀ rs, validate_path path = .ok () → rewriteRows skip filter m rows = .ok rs →
        (download_courses skip m rows dl filter path courses).2 = .ok ()
        ∧ (download_courses skip m rows dl filter path courses).1 =
            [Event.mkdirCoursesDir (pyJoin (argPathStr path) "courses"),
              Event.mkdirRootDir (argPathStr path), Event.fetchCoursesPage,
              Event.downloadCss, Event.writeIndexHtml (argPathStr path)] ++
            ((courses.filter (selectedCourse filter)).flatMap fun c =>
              Event.mkdirCourseDir c ::
                match dl c with
                | .ok _ => [Event.downloadOk c]
                | .error e => [Event.courseSkipped c e])
        ∧ (∀ c ∈ courses, selectedCourse filter c = true →
            (dl c = .ok () →
              Event.downloadOk c ∈ (download_courses skip m rows dl filter path courses).1)
            ∧ (∀ e, dl c = .error e →
              Event.courseSkipped c e ∈ (download_courses skip m rows dl filter path courses).1))) := by
  constructor
  · unfold download_courses
    cases hv : validate_path path with
    | error e => rfl
    | ok u =>
      cases u
      unfold download_ceiba_homepage
      rw [hv]
      cases hr : rewriteRows skip filter m rows <;> rfl
  · intro rs hv hr
    have htr : download_courses skip m rows dl filter path courses =
        ([Event.mkdirCoursesDir (pyJoin (argPathStr path) "courses")] ++
          ([Event.mkdirRootDir (argPathStr path), Event.fetchCoursesPage,
            Event.downloadCss] ++ [Event.writeIndexHtml (argPathStr path)]) ++
          downloadLoop dl filter courses, .ok ()) := by
      unfold download_courses download_ceiba_homepage
      rw [hv, hr]
    rw [htr]
    refine ⟨rfl, ?_, ?_⟩
    · simp [downloadLoop_eq_flatMap]
    · intro c hc hsel
      constructor
      · intro hdl
        simp only [List.mem_append]
        exact Or.inr (downloadLoop_ok_mem dl filter courses c hc hsel hdl)
      · intro e hdl
        simp only [List.mem_append]
        exact Or.inr (downloadLoop_skip_mem dl filter courses c hc hsel e hdl)

/-- Witness for `download_courses_isolates_failures`: a three-course batch
whose second course's downloader raises; the batch returns normally, the
first and third courses are downloaded, the second is logged as
skipped. -/
theorem download_courses_isolates_failures_witness :
    validate_path (.str "out") = .ok ()
    ∧ rewriteRows [] none (fun _ => none) [] = .ok []
    ∧ (download_courses [] (fun _ => none) [] demoDl none (.str "out")
        [demoCourse0, demoCourse1, demoCourse2]).2 = .ok ()
    ∧ Event.downloadOk demoCourse0 ∈
        (download_courses [] (fun _ => none) [] demoDl none (.str "out")
          [demoCourse0, demoCourse1, demoCourse2]).1
    ∧ Event.courseSkipped demoCourse1 "boom" ∈
        (download_courses [] (fun _ => none) [] demoDl none (.str "out")
          [demoCourse0, demoCourse1, demoCourse2]).1
    ∧ Event.downloadOk demoCourse2 ∈
        (download_courses [] (fun _ => none) [] demoDl none (.str "out")
          [demoCourse0, demoCourse1, demoCourse2]).1 := by
  have h := (download_courses_isolates_failures [] (fun _ => none) [] demoDl demoDl
    none (.str "out") [demoCourse0, demoCourse1, demoCourse2]).2 [] rfl rfl
  refine ⟨rfl, rfl, h.1, ?_, ?_, ?_⟩
  · exact ((h.2.2) demoCourse0 (by simp) rfl).1 rfl
  · exact ((h.2.2) demoCourse1 (by simp) rfl).2 "boom" rfl
  · exact ((h.2.2) demoCourse2 (by simp) rfl).1 rfl

/-- **C3**: if the homepage rewrite completes, every course row that is
neither excluded nor filtered out keeps an active anchor whose `href` is
exactly `"courses/" ++` the folder name recorded for that row's id in the
course-directory map `++ "/index.html"`. -/
theorem homepage_active_anchor_href (skip : List String) (filter : Option (List String))
    (m : String → Option String) (rows : List CourseRow) (rs : List RowResult)
    (i : Nat) (row : CourseRow)
    (hok : rewriteRows skip filter m rows = .ok rs)
    (hrow : rows[i]? = some row)
    (hskip : skip.contains row.anchorText = false)
    (hfilt : ∀ f, filter = some f → f.contains (courseIdOfRow row) = true) :
    ∃ folder, m (courseIdOfRow row) = some folder ∧
      rs[i]? = some (.active ("courses/" ++ folder ++ "/index.html") row.anchorText) := by
  refine rewriteRows_active_at skip filter m rows rs i row hok hrow
    (by simpa using hskip) ?_
  intro f hf
  simpa using hfilt f hf

/-- Witness for `homepage_active_anchor_href` at a one-row page whose id
is recorded in the map. -/
theorem homepage_active_anchor_href_witness :
    rewriteRows [] none (fun k => if k = "1101101" then some "dirA" else none) [dupRowA] =
      .ok [.active "courses/dirA/index.html" "A"]
    ∧ ([dupRowA] : List CourseRow)[0]? = some dupRowA
    ∧ ((["X"] : List String).contains dupRowA.anchorText || false) = false
    ∧ (∃ folder,
        (fun k => if k = "1101101" then some "dirA" else none) (courseIdOfRow dupRowA) = some folder ∧
        ([RowResult.active "courses/dirA/index.html" "A"] : List RowResult)[0]? =
          some (.active ("courses/" ++ folder ++ "/index.html") dupRowA.anchorText)) := by
  refine ⟨rfl, rfl, by decide, ?_⟩
  exact homepage_active_anchor_href [] none
    (fun k => if k = "1101101" then some "dirA" else none) [dupRowA]
    [.active "courses/dirA/index.html" "A"] 0 dupRowA rfl rfl (by decide)
    (fun f hf => by cases hf)

/-- **C4**: with no `course_id_filter`, every non-excluded course row's
anchor stays active; with a filter, a row whose id is absent from the
filter is unwrapped to its text with muted (silver) row styling, while a
non-excluded row whose id is in the filter stays active. -/
theorem homepage_filter_behaviour (skip : List String)
    (m : String → Option String) (rows : List CourseRow)
    (i : Nat) (row : CourseRow) (hrow : rows[i]? = some row) :
    (∀ rs, rewriteRows skip none m rows = .ok rs →
        skip.contains row.anchorText = false →
        ∃ folder,
          rs[i]? = some (.active ("courses/" ++ folder ++ "/index.html") row.anchorText))
    ∧ (∀ f rs, rewriteRows skip (some f) m rows = .ok rs →
        f.contains (courseIdOfRow row) = false →
        rs[i]? = some (.muted row.anchorText))
    ∧ (∀ f rs, rewriteRows skip (some f) m rows = .ok rs →
        skip.contains row.anchorText = false →
        f.contains (courseIdOfRow row) = true →
        ∃ folder,
          rs[i]? = some (.active ("courses/" ++ folder ++ "/index.html") row.anchorText)) := by
  refine ⟨?_, ?_, ?_⟩
  · intro rs hok hskip
    obtain ⟨folder, _, hr⟩ := rewriteRows_active_at skip none m rows rs i row
      hok hrow (by simpa using hskip) (fun f hf => by cases hf)
    exact ⟨folder, hr⟩
  · intro f rs hok hf
    obtain ⟨b, hb, hrs⟩ := exceptMapM_ok_get hok i row hrow
    unfold rewriteRow at hb
    have hf' : courseIdOfRow row ∉ f := by simpa using hf
    simp [hf'] at hb
    subst hb
    exact hrs
  · intro f rs hok hskip hf
    obtain ⟨folder, _, hr⟩ := rewriteRows_active_at skip (some f) m rows rs i row
      hok hrow (by simpa using hskip) (fun f' hf' => by cases hf'; simpa using hf)
    exact ⟨folder, hr⟩

/-- Witness for `homepage_filter_behaviour`: a one-row page, once with no
filter (anchor active) and once with a filter missing the row's id
(anchor unwrapped and row muted). -/
theorem homepage_filter_behaviour_witness :
    ([dupRowA] : List CourseRow)[0]? = some dupRowA
    ∧ rewriteRows [] (some ["zzz"]) (fun _ => none) [dupRowA] = .ok [.muted "A"]
    ∧ (["zzz"] : List String).contains (courseIdOfRow dupRowA) = false
    ∧ ([RowResult.muted "A"] : List RowResult)[0]? = some (.muted dupRowA.anchorText) := by
  refine ⟨rfl, rfl, by decide, ?_⟩
  exact (homepage_filter_behaviour [] (fun _ => none) [dupRowA] 0 dupRowA rfl).2.1
    ["zzz"] [.muted "A"] rfl (by decide)

/-- **C10**: the empty-path rejection tests `type(path) == str`, so a
`Path`-typed argument is never rejected: `Path("")` validates, denotes
the current directory `"."`, and both download entry points proceed (any
failure they can still raise is a `KeyError`, never `InvalidFilePath`),
creating their output relative to the current working directory. -/
theorem path_typed_empty_not_rejected (skip : List String)
    (filter : Option (List String)) (m : String → Option String)
    (rows : List CourseRow) (dl : Course → Except String Unit)
    (courses : List Course) (s : String) :
    validate_path (.path s) = .ok ()
    ∧ argPathStr (.path "") = "."
    ∧ (download_ceiba_homepage skip filter m rows (.path "")).2 ≠
        .error (.ceiba .invalidFilePath)
    ∧ (download_ceiba_homepage skip filter m rows (.path "")).1[0]? =
        some (.mkdirRootDir ".")
    ∧ (download_courses skip m rows dl filter (.path "") courses).2 ≠
        .error (.ceiba .invalidFilePath)
    ∧ (download_courses skip m rows dl filter (.path "") courses).1[0]? =
        some (.mkdirCoursesDir "courses") := by
  refine ⟨rfl, rfl, ?_, ?_, ?_, ?_⟩
  · unfold download_ceiba_homepage
    cases hr : rewriteRows skip filter m rows with
    | error e =>
      obtain ⟨k, hk⟩ := rewriteRows_error_is_keyError skip filter m rows e hr
      subst hk
      simp [validate_path]
    | ok rs => simp [validate_path]
  · unfold download_ceiba_homepage
    cases hr : rewriteRows skip filter m rows <;> simp [validate_path, argPathStr, pathlibStr]
  · unfold download_courses download_ceiba_homepage
    cases hr : rewriteRows skip filter m rows with
    | error e =>
      obtain ⟨k, hk⟩ := rewriteRows_error_is_keyError skip filter m rows e hr
      subst hk
      simp [validate_path]
    | ok rs => simp [validate_path]
  · unfold download_courses download_ceiba_homepage
    cases hr : rewriteRows skip filter m rows <;>
      simp [validate_path, argPathStr, pathlibStr, pyJoin]

end Ceiba
